import Mathlib

/-!
Verification of the `gatewayinfo` middleware of gateway-connector-bridge
(`src/middleware/gatewayinfo/gatewayinfo.go`).

The middleware is a rate-limited cache of public gateway information:
a mutex-guarded map from gateway identifier to a cached record-or-error
with its last-update timestamp, a token-bucket limiter bounding upstream
lookups, and four message-pipeline hooks that fetch, evict, and enrich.

Embedding choices:
* `time.Time` / `time.Duration` are modelled as `Nat` (a monotone clock);
  `time.Since(t) > d` becomes `now - t > d` with truncated subtraction.
* The mutex-guarded mutation of the `info` map is modelled as explicit
  state passing on `Public`; each Go method that reads the clock takes
  `now` as an argument.
* The upstream client `account.FindGateway` is a parameter
  `lookup : String → Except Err Gateway`; errors are opaque strings.
* The `available` channel (capacity `RequestBurst`) is modelled as a
  `Nat` permit counter; receiving from the channel is `acquire` (blocks,
  i.e. yields `none`, at zero permits), the ticker's non-blocking send is
  `tryRefill`.
* `go p.fetch(...)` scheduling is modelled by `get` additionally
  returning whether a background refresh was scheduled, and the hooks
  returning the identifier whose background work was scheduled.
* Go `float64`/`float32`/`int32` coordinates are modelled as `Int`; no
  verified property depends on numeric rounding of the narrowing
  conversions in the enrichment hooks.
-/

namespace GatewayInfo

/-- Opaque upstream error values (Go `error`, preserved as-is). -/
abbrev Err := String

/-- `account.Gateway.AntennaLocation` (fields used by this middleware). -/
structure Location where
  latitude : Int
  longitude : Int
  altitude : Int
deriving DecidableEq

/-- `account.Gateway.Attributes` (fields used by this middleware); Go
`*string` pointers become `Option String`. -/
structure Attributes where
  brand : Option String
  model : Option String
  description : Option String
deriving DecidableEq

/-- The fields of `account.Gateway` read by this middleware. -/
structure Gateway where
  antennaLocation : Option Location
  frequencyPlan : String
  attributes : Attributes
deriving DecidableEq

/-- The Go zero value of `account.Gateway`: nil location, empty strings,
nil attribute pointers. -/
def Gateway.empty : Gateway :=
  { antennaLocation := none, frequencyPlan := "", attributes := { brand := none, model := none, description := none } }

/-- The cache entry `type info struct { lastUpdated time.Time; err error; gateway account.Gateway }`. -/
structure info where
  lastUpdated : Nat
  err : Option Err
  gateway : Gateway
deriving DecidableEq

/-- The cache state of `type Public struct`: the expiry duration and the
`info` map (the log, account client, mutex and permit channel are modelled
separately or at the boundary). -/
structure Public where
  expire : Nat
  info : String → Option info

/-- `RequestBurst` — burst of requests to the account server. -/
def RequestBurst : Nat := 50

/-- `NewPublic`: zero expiry, empty info map. The permit channel is
created full; see `initPermits`. -/
def NewPublic : Public :=
  { expire := 0, info := fun _ => none }

/-- The fill loop in `NewPublic`: the permit channel starts with `burst`
permits. -/
def initPermits (burst : Nat) : Nat := burst

/-- `WithExpire` — sets the expiration duration. -/
def WithExpire (p : Public) (duration : Nat) : Public :=
  { p with expire := duration }

/-- `Public.setErr`: if an entry exists, update its timestamp and error in
place (keeping the cached record); otherwise insert a fresh entry holding
only the timestamp and error (zero-valued record). -/
def setErr (p : Public) (now : Nat) (gatewayID : String) (e : Err) : Public :=
  match p.info gatewayID with
  | some gtw =>
    { p with info := fun gid => if gid = gatewayID then some { gtw with lastUpdated := now, err := some e } else p.info gid }
  | none =>
    { p with info := fun gid => if gid = gatewayID then some { lastUpdated := now, err := some e, gateway := Gateway.empty } else p.info gid }

/-- `Public.set`: replace the entry for `gatewayID` with a fresh entry
`{now, no error, gateway}`. -/
def set (p : Public) (now : Nat) (gatewayID : String) (gateway : Gateway) : Public :=
  { p with info := fun gid => if gid = gatewayID then some { lastUpdated := now, err := none, gateway := gateway } else p.info gid }

/-- Result of `Public.get`: the returned `(gateway, err)` pair, the state
of the store after the call, and whether a background refresh fetch was
scheduled (`go p.fetch(gatewayID)`). -/
structure GetResult where
  gateway : Gateway
  err : Option Err
  state : Public
  scheduled : Bool

/-- `Public.get`: absent entry returns the zero gateway and nil error and
leaves the store untouched; a present entry older than a non-zero expiry
has its timestamp bumped to `now` and a background refresh scheduled; the
currently stored record/error is returned in every case. -/
def get (p : Public) (now : Nat) (gatewayID : String) : GetResult :=
  match p.info gatewayID with
  | none => ⟨Gateway.empty, none, p, false⟩
  | some i =>
    if p.expire ≠ 0 ∧ now - i.lastUpdated > p.expire then
      ⟨i.gateway, i.err,
       { p with info := fun gid => if gid = gatewayID then some { i with lastUpdated := now } else p.info gid },
       true⟩
    else
      ⟨i.gateway, i.err, p, false⟩

/-- `Public.unset`: delete the entry. -/
def unset (p : Public) (gatewayID : String) : Public :=
  { p with info := fun gid => if gid = gatewayID then none else p.info gid }

/-- The ticker body in `NewPublic`: a non-blocking send on the permit
channel — add one permit unless the bucket is already at its `burst`
capacity, in which case the refill is discarded. -/
def tryRefill (burst : Nat) (permits : Nat) : Nat :=
  if permits < burst then permits + 1 else permits

/-- `<-p.available` in `fetch`: whether a fetch may start without
waiting (a permit is available). -/
def canStart (permits : Nat) : Bool :=
  permits != 0

/-- An event on the permit channel: a ticker refill attempt, or a fetch
acquiring a permit (a blocked acquisition at zero permits waits, leaving
the count unchanged). -/
inductive LimiterEvent
  | refill
  | acquirePermit
deriving DecidableEq

/-- One step of the permit channel. -/
def limiterStep (burst : Nat) (permits : Nat) : LimiterEvent → Nat
  | .refill => tryRefill burst permits
  | .acquirePermit => permits - 1

/-- A run of the permit channel over a sequence of events. -/
def runLimiter (burst : Nat) (permits : Nat) : List LimiterEvent → Nat
  | [] => permits
  | ev :: rest => runLimiter burst (limiterStep burst permits ev) rest

/-- Result of a completed `Public.fetch`: the store after the completion
write, the remaining permits, and the returned error. -/
structure FetchResult where
  state : Public
  permits : Nat
  ret : Option Err

/-- `Public.fetch`: receive one permit from `available` (blocking — at
zero permits the fetch cannot start, modelled as `none`), perform the
single upstream lookup, and write the outcome with `setErr` or `set`. -/
def fetch (p : Public) (permits : Nat) (now : Nat) (lookup : String → Except Err Gateway) (gatewayID : String) : Option FetchResult :=
  if permits = 0 then
    none
  else
    match lookup gatewayID with
    | .error e => some ⟨setErr p now gatewayID e, permits - 1, some e⟩
    | .ok gateway => some ⟨set p now gatewayID gateway, permits - 1, none⟩

/-- `gateway.GPSMetadata` (coordinates as `Int`, see module comment). -/
structure GPSMetadata where
  latitude : Int
  longitude : Int
  altitude : Int
deriving DecidableEq

/-- Trace events attached to uplink messages by this middleware. -/
structure TraceEvent where
  event : String
  errAttr : Option Err
deriving DecidableEq

/-- The fields of `types.UplinkMessage` touched by this middleware: the
gateway metadata GPS field and the message trace. -/
structure UplinkMessage where
  gps : Option GPSMetadata
  trace : List TraceEvent
deriving DecidableEq

/-- The fields of `types.StatusMessage` touched by this middleware. -/
structure StatusMessage where
  gps : Option GPSMetadata
  frequencyPlan : String
  platform : String
  description : String
deriving DecidableEq

/-- Go `strings.Join(elems, sep)`. -/
def stringsJoin : List String → String → String
  | [], _ => ""
  | [s], _ => s
  | s :: rest, sep => s ++ sep ++ stringsJoin rest sep

/-- Result of `HandleUplink`: store state after the `get`, the enriched
message, and the hook's return value. -/
structure UplinkResult where
  state : Public
  msg : UplinkMessage
  ret : Option Err

/-- Result of `HandleStatus`. -/
structure StatusResult where
  state : Public
  msg : StatusMessage
  ret : Option Err

/-- Lines 150–158 of `HandleUplink`: inject the cached antenna location
into the gateway metadata when the message carries no GPS data. -/
def enrichUplink (gtw : Gateway) (msg : UplinkMessage) : UplinkMessage :=
  match msg.gps, gtw.antennaLocation with
  | none, some loc =>
    { msg with
      trace := msg.trace ++ [{ event := "injecting gateway location", errAttr := none }],
      gps := some { latitude := loc.latitude, longitude := loc.longitude, altitude := loc.altitude } }
  | _, _ => msg

/-- `Public.HandleUplink`: read the cache; a read error is attached to
the message trace (not returned); inject the location if absent; always
return nil. -/
def HandleUplink (p : Public) (now : Nat) (gatewayID : String) (msg : UplinkMessage) : UplinkResult :=
  let r := get p now gatewayID
  let msg1 :=
    match r.err with
    | some e => { msg with trace := msg.trace ++ [{ event := "unable to get gateway info", errAttr := some e }] }
    | none => msg
  ⟨r.state, enrichUplink r.gateway msg1, none⟩

/-- Lines 165–171 of `HandleStatus`: fill the GPS field from the cached
antenna location when the message carries none. -/
def statusGps (gtw : Gateway) (msg : StatusMessage) : StatusMessage :=
  match msg.gps, gtw.antennaLocation with
  | none, some loc =>
    { msg with gps := some { latitude := loc.latitude, longitude := loc.longitude, altitude := loc.altitude } }
  | _, _ => msg

/-- Lines 172–174 of `HandleStatus`: fill an empty frequency plan from a
non-empty cached one. -/
def statusFreq (gtw : Gateway) (msg : StatusMessage) : StatusMessage :=
  if msg.frequencyPlan = "" ∧ gtw.frequencyPlan ≠ "" then
    { msg with frequencyPlan := gtw.frequencyPlan }
  else msg

/-- Lines 175–184 of `HandleStatus`: on an empty platform, write the join
of the list that takes the brand and then the model whenever the
corresponding attribute pointer is non-nil, separated by a single
space. -/
def statusPlatform (gtw : Gateway) (msg : StatusMessage) : StatusMessage :=
  if msg.platform = "" then
    let platform : List String :=
      (match gtw.attributes.brand with | some b => [b] | none => []) ++
      (match gtw.attributes.model with | some m => [m] | none => [])
    { msg with platform := stringsJoin platform " " }
  else msg

/-- Lines 185–187 of `HandleStatus`: fill an empty description from a
non-nil cached description attribute. -/
def statusDescr (gtw : Gateway) (msg : StatusMessage) : StatusMessage :=
  if msg.description = "" then
    match gtw.attributes.description with
    | some d => { msg with description := d }
    | none => msg
  else msg

/-- Lines 165–187 of `HandleStatus`: the four fill steps in source
order. -/
def enrichStatus (gtw : Gateway) (msg : StatusMessage) : StatusMessage :=
  statusDescr gtw (statusPlatform gtw (statusFreq gtw (statusGps gtw msg)))

/-- `Public.HandleStatus`: read the cache discarding the error
(`info, _ := p.get(...)`), enrich the message from the record only,
always return nil. -/
def HandleStatus (p : Public) (now : Nat) (gatewayID : String) (msg : StatusMessage) : StatusResult :=
  let r := get p now gatewayID
  ⟨r.state, enrichStatus r.gateway msg, none⟩

/-- `types.ConnectMessage` (the field used here). -/
structure ConnectMessage where
  gatewayID : String

/-- `types.DisconnectMessage` (the field used here). -/
structure DisconnectMessage where
  gatewayID : String

/-- `Public.HandleConnect`: schedule a background `fetch` for the
gateway (its error is logged and swallowed inside the goroutine) and
return nil immediately. The result is the identifier whose fetch was
scheduled and the hook's return value. -/
def HandleConnect (p : Public) (msg : ConnectMessage) : String × Option Err :=
  (msg.gatewayID, none)

/-- `Public.HandleDisconnect`: schedule a background `unset` for the
gateway and return nil immediately. The result is the identifier whose
removal was scheduled and the hook's return value. -/
def HandleDisconnect (p : Public) (msg : DisconnectMessage) : String × Option Err :=
  (msg.gatewayID, none)

/-! Concrete sample values used by witnesses and counterexamples. -/

/-- A sample antenna location. -/
def loc123 : Location := ⟨1, 2, 3⟩

/-- A sample fully populated directory record. -/
def gtw1 : Gateway :=
  { antennaLocation := some loc123, frequencyPlan := "EU_863_870",
    attributes := { brand := some "B", model := some "M", description := some "D" } }

/-- A state holding a previously successful entry for "gw". -/
def pPrior : Public := set NewPublic 0 "gw" gtw1

/-- A state with a non-zero expiry and an entry for "gw" last updated at 0. -/
def pExp : Public := WithExpire pPrior 2

/-! Helper lemmas. -/

/-- The value components returned by `get` are exactly the stored entry's
record and error, whether or not a refresh is scheduled. -/
theorem get_components (p : Public) (now : Nat) (gid : String) (i : info)
    (h : p.info gid = some i) :
    (get p now gid).gateway = i.gateway ∧ (get p now gid).err = i.err := by
  unfold get
  rw [h]
  split
  · rename_i heq
    exact absurd heq (by simp)
  · rename_i j heq
    injection heq with hj
    subst hj
    split <;> simp

/-- The entry stored at the key a `get` call targets keeps its record and
error (only the timestamp may be bumped). -/
theorem get_state_entry (p : Public) (now : Nat) (gid : String) (i : info)
    (h : p.info gid = some i) :
    ∃ t, (get p now gid).state.info gid = some ⟨t, i.err, i.gateway⟩ := by
  unfold get
  rw [h]
  split
  · rename_i heq
    exact absurd heq (by simp)
  · rename_i j heq
    injection heq with hj
    subst hj
    split
    · exact ⟨now, by simp⟩
    · exact ⟨i.lastUpdated, h⟩

/-- Claim C1: `setErr` preserves known-good data. If an entry exists when
a failed fetch completes, only its timestamp and error are replaced and
the cached record is kept, so a subsequent `get` returns the previously
cached record with the new error; if no entry existed, a fresh entry with
the zero-valued record and the error is created, so `get` returns an
empty record and that error. -/
theorem setErr_preserves_known_good (p : Public) (now now' : Nat) (gatewayID : String) (e : Err) :
    (∀ i, p.info gatewayID = some i →
      (setErr p now gatewayID e).info gatewayID = some ⟨now, some e, i.gateway⟩ ∧
      (get (setErr p now gatewayID e) now' gatewayID).gateway = i.gateway ∧
      (get (setErr p now gatewayID e) now' gatewayID).err = some e) ∧
    (p.info gatewayID = none →
      (setErr p now gatewayID e).info gatewayID = some ⟨now, some e, Gateway.empty⟩ ∧
      (get (setErr p now gatewayID e) now' gatewayID).gateway = Gateway.empty ∧
      (get (setErr p now gatewayID e) now' gatewayID).err = some e) := by
  constructor
  · intro i hi
    have hupd : (setErr p now gatewayID e).info gatewayID = some ⟨now, some e, i.gateway⟩ := by
      unfold setErr
      rw [hi]
      simp
    have hget := get_components (setErr p now gatewayID e) now' gatewayID ⟨now, some e, i.gateway⟩ hupd
    exact ⟨hupd, hget.1, hget.2⟩
  · intro hi
    have hupd : (setErr p now gatewayID e).info gatewayID = some ⟨now, some e, Gateway.empty⟩ := by
      unfold setErr
      rw [hi]
      simp
    have hget := get_components (setErr p now gatewayID e) now' gatewayID ⟨now, some e, Gateway.empty⟩ hupd
    exact ⟨hupd, hget.1, hget.2⟩

/-- Witness for C1 at concrete inputs: a prior successful entry for "gw"
survives a failed refresh, and a failed fetch on a fresh identifier
yields the empty record with the error. -/
theorem setErr_preserves_known_good_witness :
    (get (setErr pPrior 1 "gw" "boom") 2 "gw").gateway = gtw1 ∧
    (get (setErr pPrior 1 "gw" "boom") 2 "gw").err = some "boom" ∧
    (get (setErr NewPublic 1 "nogw" "boom") 2 "nogw").gateway = Gateway.empty ∧
    (get (setErr NewPublic 1 "nogw" "boom") 2 "nogw").err = some "boom" := by
  obtain ⟨hsome, -⟩ := setErr_preserves_known_good pPrior 1 2 "gw" "boom"
  obtain ⟨-, hnone⟩ := setErr_preserves_known_good NewPublic 1 2 "nogw" "boom"
  obtain ⟨-, h1, h2⟩ := hsome ⟨0, none, gtw1⟩ (by decide)
  obtain ⟨-, h3, h4⟩ := hnone rfl
  exact ⟨h1, h2, h3, h4⟩

/-- Claim C3: a successful fetch wholly replaces the entry with the
fetched record, the current time and no error (in particular a previously
stored error is cleared, since this holds for every prior state `p`), and
a subsequent `get` returns exactly that record with no error, leaving a
record/error-identical entry in place. -/
theorem set_replaces_wholly (p : Public) (now now' : Nat) (gatewayID : String) (gateway : Gateway) :
    (set p now gatewayID gateway).info gatewayID = some ⟨now, none, gateway⟩ ∧
    (get (set p now gatewayID gateway) now' gatewayID).gateway = gateway ∧
    (get (set p now gatewayID gateway) now' gatewayID).err = none ∧
    ∃ t, (get (set p now gatewayID gateway) now' gatewayID).state.info gatewayID = some ⟨t, none, gateway⟩ := by
  have hupd : (set p now gatewayID gateway).info gatewayID = some ⟨now, none, gateway⟩ := by
    unfold set
    simp
  have hget := get_components (set p now gatewayID gateway) now' gatewayID ⟨now, none, gateway⟩ hupd
  have hst := get_state_entry (set p now gatewayID gateway) now' gatewayID ⟨now, none, gateway⟩ hupd
  exact ⟨hupd, hget.1, hget.2, hst⟩

/-- Claim C4: for an identifier with no entry — never fetched, or
removed — `get` returns the empty record and no error, schedules nothing
and leaves the store untouched; `remove` followed by `get` behaves
exactly like `get` on a never-fetched identifier. -/
theorem get_missing_empty (p q : Public) (now now' : Nat) (gatewayID : String)
    (h : p.info gatewayID = none) :
    get p now gatewayID = ⟨Gateway.empty, none, p, false⟩ ∧
    (unset q gatewayID).info gatewayID = none ∧
    get (unset q gatewayID) now' gatewayID = ⟨Gateway.empty, none, unset q gatewayID, false⟩ := by
  have hu : (unset q gatewayID).info gatewayID = none := by
    unfold unset
    simp
  refine ⟨?_, hu, ?_⟩
  · unfold get
    rw [h]
  · unfold get
    rw [hu]

/-- Witness for C4 at concrete inputs: a never-fetched identifier, and a
previously fetched identifier after removal. -/
theorem get_missing_empty_witness :
    get NewPublic 3 "gw" = ⟨Gateway.empty, none, NewPublic, false⟩ ∧
    get (unset pPrior "gw") 4 "gw" = ⟨Gateway.empty, none, unset pPrior "gw", false⟩ := by
  obtain ⟨h1, -, h2⟩ := get_missing_empty NewPublic pPrior 3 4 "gw" rfl
  exact ⟨h1, h2⟩

/-- Claim C9: a completed fetch always (re)creates the store entry for
its identifier — `set` and `setErr` insert unconditionally — so a removal
racing with an in-flight fetch does not suppress the completing fetch's
write. -/
theorem fetch_completion_reinserts (p : Public) (now : Nat) (gatewayID : String) (gateway : Gateway) (e : Err) :
    (set (unset p gatewayID) now gatewayID gateway).info gatewayID = some ⟨now, none, gateway⟩ ∧
    (setErr (unset p gatewayID) now gatewayID e).info gatewayID = some ⟨now, some e, Gateway.empty⟩ ∧
    ∀ q : Public, ((set q now gatewayID gateway).info gatewayID).isSome = true ∧
      ((setErr q now gatewayID e).info gatewayID).isSome = true := by
  have hu : (unset p gatewayID).info gatewayID = none := by
    unfold unset
    simp
  refine ⟨by unfold set; simp, ?_, ?_⟩
  · unfold setErr
    rw [hu]
    simp
  · intro q
    constructor
    · unfold set
      simp
    · unfold setErr
      cases hq : q.info gatewayID <;> simp

/-- Claim C10: per-key isolation — every store operation applied to key
`x` leaves the entry (or absence of one) at every other key `y`
unchanged. -/
theorem per_key_isolation (p : Public) (now : Nat) (x y : String) (gateway : Gateway) (e : Err)
    (h : y ≠ x) :
    (set p now x gateway).info y = p.info y ∧
    (setErr p now x e).info y = p.info y ∧
    (get p now x).state.info y = p.info y ∧
    (unset p x).info y = p.info y := by
  refine ⟨?_, ?_, ?_, ?_⟩
  · unfold set
    simp [h]
  · unfold setErr
    cases hq : p.info x <;> simp [h]
  · unfold get
    cases hq : p.info x
    · rfl
    · split
      · rfl
      · split <;> simp [h]
  · unfold unset
    simp [h]

/-- A `get` on an entry no older than the expiry schedules no refresh. -/
theorem get_no_reschedule (q : Public) (now' : Nat) (gid : String) (j : info)
    (hq : q.info gid = some j) (hrecent : now' - j.lastUpdated ≤ q.expire) :
    (get q now' gid).scheduled = false := by
  unfold get
  rw [hq]
  split
  · rename_i heq
    exact absurd heq (by simp)
  · rename_i j2 heq
    injection heq with hj
    subst hj
    split
    · rename_i cond
      exact absurd cond.2 (by omega)
    · rfl

/-- Claim C2: with a present entry, `get` schedules a background refresh
exactly when the expiry is non-zero and the entry is older than it; when
it does, it bumps the entry's timestamp to `now` before returning (so a
second `get` within the expiry window finds a fresh timestamp and
schedules no second fetch) and still returns the stored, possibly stale,
record/error; with zero expiry it schedules nothing and leaves the store
untouched. -/
theorem get_expiry_refresh (p : Public) (now now' : Nat) (gatewayID : String) (i : info)
    (hmem : p.info gatewayID = some i) (hwin : now' - now ≤ p.expire) :
    ((get p now gatewayID).scheduled = true ↔ p.expire ≠ 0 ∧ now - i.lastUpdated > p.expire) ∧
    (get p now gatewayID).gateway = i.gateway ∧
    (get p now gatewayID).err = i.err ∧
    ((get p now gatewayID).scheduled = true →
      (get p now gatewayID).state.info gatewayID = some ⟨now, i.err, i.gateway⟩ ∧
      (get (get p now gatewayID).state now' gatewayID).scheduled = false) ∧
    (p.expire = 0 → get p now gatewayID = ⟨i.gateway, i.err, p, false⟩) := by
  unfold get
  rw [hmem]
  split
  · rename_i heq
    exact absurd heq (by simp)
  · rename_i j heq
    injection heq with hj
    subst hj
    split
    · rename_i cond
      refine ⟨⟨fun _ => cond, fun _ => rfl⟩, rfl, rfl, ?_, fun h0 => absurd h0 cond.1⟩
      intro _
      constructor
      · simp
      · exact get_no_reschedule _ now' gatewayID ⟨now, i.err, i.gateway⟩ (by simp) (by simpa using hwin)
    · rename_i cond
      exact ⟨iff_of_false (by simp) cond, rfl, rfl, fun h => absurd h (by simp), fun _ => rfl⟩

/-- Witness for C2 at concrete inputs: with expiry 2 and an entry last
updated at 0, a `get` at time 5 schedules a refresh and a second `get`
at time 6 does not. -/
theorem get_expiry_refresh_witness :
    (get pExp 5 "gw").scheduled = true ∧
    (get (get pExp 5 "gw").state 6 "gw").scheduled = false := by
  obtain ⟨hiff, -, -, hbump, -⟩ :=
    get_expiry_refresh pExp 5 6 "gw" ⟨0, none, gtw1⟩ (by decide) (by decide)
  have hs : (get pExp 5 "gw").scheduled = true := hiff.mpr (by decide)
  exact ⟨hs, (hbump hs).2⟩

/-- Every step of the permit channel keeps the permit count at or below
the burst capacity. -/
theorem limiterStep_le (burst c : Nat) (hc : c ≤ burst) (ev : LimiterEvent) :
    limiterStep burst c ev ≤ burst := by
  cases ev
  · show tryRefill burst c ≤ burst
    unfold tryRefill
    split <;> omega
  · show c - 1 ≤ burst
    omega

/-- A run of the permit channel from at most `burst` permits stays at or
below `burst`. -/
theorem runLimiter_le (burst : Nat) (events : List LimiterEvent) :
    ∀ c, c ≤ burst → runLimiter burst c events ≤ burst := by
  induction events with
  | nil => intro c hc; exact hc
  | cons ev rest ih =>
    intro c hc
    exact ih (limiterStep burst c ev) (limiterStep_le burst c hc ev)

/-- A block of `j` permit acquisitions consumes `j` permits (truncated at
zero, where an acquisition blocks). -/
theorem runLimiter_replicate_acquire (burst : Nat) (j : Nat) :
    ∀ c, runLimiter burst c (List.replicate j LimiterEvent.acquirePermit) = c - j := by
  induction j with
  | zero => intro c; simp [runLimiter]
  | succ j ih =>
    intro c
    rw [List.replicate_succ]
    show runLimiter burst (limiterStep burst c LimiterEvent.acquirePermit)
        (List.replicate j LimiterEvent.acquirePermit) = c - (j + 1)
    rw [ih (limiterStep burst c LimiterEvent.acquirePermit)]
    show c - 1 - j = c - (j + 1)
    omega

/-- Claim C5: the rate limiter starts at the configured burst `B`, never
exceeds `B` over any run, refills add one permit except at capacity where
they are discarded, the first `B` fetches start without waiting while the
`(B+1)`-th finds no permit and blocks until the next refill, and each
completed `fetch` consumes exactly one permit before its single upstream
lookup. -/
theorem rate_limiter_invariant (B : Nat) (events : List LimiterEvent) (k : Nat)
    (hk : k < B) :
    initPermits B = B ∧
    runLimiter B (initPermits B) events ≤ B ∧
    tryRefill B B = B ∧
    (∀ c, c < B → tryRefill B c = c + 1) ∧
    (∀ j, runLimiter B (initPermits B) (List.replicate j LimiterEvent.acquirePermit) = B - j) ∧
    canStart (runLimiter B (initPermits B) (List.replicate k LimiterEvent.acquirePermit)) = true ∧
    canStart (runLimiter B (initPermits B) (List.replicate B LimiterEvent.acquirePermit)) = false ∧
    canStart (tryRefill B (runLimiter B (initPermits B) (List.replicate B LimiterEvent.acquirePermit))) = true ∧
    ∀ (p : Public) (now : Nat) (lookup : String → Except Err Gateway) (gid : String),
      fetch p 0 now lookup gid = none ∧
      ∀ c r, fetch p c now lookup gid = some r → r.permits = c - 1 := by
  have hrep : ∀ j, runLimiter B (initPermits B) (List.replicate j LimiterEvent.acquirePermit) = B - j :=
    fun j => runLimiter_replicate_acquire B j B
  refine ⟨rfl, runLimiter_le B events B le_rfl, ?_, ?_, hrep, ?_, ?_, ?_, ?_⟩
  · unfold tryRefill
    simp
  · intro c hc
    unfold tryRefill
    simp [hc]
  · rw [hrep k]
    unfold canStart
    simp
    omega
  · rw [hrep B]
    unfold canStart
    simp
  · rw [hrep B]
    unfold tryRefill canStart
    simp
    omega
  · intro p now lookup gid
    constructor
    · unfold fetch
      simp
    · intro c r hr
      unfold fetch at hr
      split at hr
      · exact absurd hr (by simp)
      · cases hlook : lookup gid <;> rw [hlook] at hr <;>
          exact (Option.some_inj.mp hr) ▸ rfl

/-- Witness for C5 at concrete inputs: burst 2, a mixed run, one and two
consecutive acquisitions. -/
theorem rate_limiter_invariant_witness :
    runLimiter 2 (initPermits 2) [LimiterEvent.acquirePermit, LimiterEvent.refill] ≤ 2 ∧
    canStart (runLimiter 2 (initPermits 2) (List.replicate 1 LimiterEvent.acquirePermit)) = true ∧
    canStart (runLimiter 2 (initPermits 2) (List.replicate 2 LimiterEvent.acquirePermit)) = false ∧
    canStart (tryRefill 2 (runLimiter 2 (initPermits 2) (List.replicate 2 LimiterEvent.acquirePermit))) = true := by
  obtain ⟨-, h2, -, -, -, h6, h7, h8, -⟩ :=
    rate_limiter_invariant 2 [LimiterEvent.acquirePermit, LimiterEvent.refill] 1 (by decide)
  exact ⟨h2, h6, h7, h8⟩

/-- Witness for C10 at concrete inputs. -/
theorem per_key_isolation_witness :
    (set pPrior 1 "a" gtw1).info "gw" = pPrior.info "gw" ∧
    (setErr pPrior 1 "a" "boom").info "gw" = pPrior.info "gw" ∧
    (get pPrior 1 "a").state.info "gw" = pPrior.info "gw" ∧
    (unset pPrior "a").info "gw" = pPrior.info "gw" := by
  exact per_key_isolation pPrior 1 "a" "gw" gtw1 "boom" (by decide)

/-- A record with a present-but-empty brand attribute. -/
def gtwEmptyBrand : Gateway :=
  { antennaLocation := none, frequencyPlan := "",
    attributes := { brand := some "", model := some "M", description := none } }

/-- A state caching `gtwEmptyBrand` for "gw". -/
def pC7 : Public := set NewPublic 0 "gw" gtwEmptyBrand

/-- A status message with every field unset. -/
def msgBlank : StatusMessage :=
  { gps := none, frequencyPlan := "", platform := "", description := "" }

/-- A record with brand "Y" cached while the message already carries
platform "X". -/
def gtwY : Gateway :=
  { antennaLocation := some loc123, frequencyPlan := "EU",
    attributes := { brand := some "Y", model := none, description := some "D" } }

/-- A state caching `gtwY` for "gw". -/
def pC6 : Public := set NewPublic 0 "gw" gtwY

/-- A status message with every field already set. -/
def smsgSet : StatusMessage :=
  { gps := some ⟨9, 9, 9⟩, frequencyPlan := "FP", platform := "X", description := "DD" }

/-- An uplink message that already carries GPS data. -/
def umsgSet : UplinkMessage := { gps := some ⟨9, 9, 9⟩, trace := [] }

/-- A state holding a failed-fetch entry for "gw". -/
def pErr : Public := setErr NewPublic 0 "gw" "boom"

/-- `enrichUplink` never touches a present GPS field. -/
theorem enrichUplink_gps_preserved (gtw : Gateway) (msg : UplinkMessage) (h : msg.gps ≠ none) :
    (enrichUplink gtw msg).gps = msg.gps := by
  unfold enrichUplink
  repeat' split
  all_goals simp_all

/-- `enrichUplink` only appends to the trace, so membership persists. -/
theorem enrichUplink_trace_mem (gtw : Gateway) (msg : UplinkMessage) (ev : TraceEvent)
    (h : ev ∈ msg.trace) : ev ∈ (enrichUplink gtw msg).trace := by
  unfold enrichUplink
  repeat' split
  all_goals simp_all

/-- `statusGps` leaves every field but GPS unchanged, and a present GPS
field unchanged as well. -/
theorem statusGps_frame (gtw : Gateway) (msg : StatusMessage) :
    (statusGps gtw msg).frequencyPlan = msg.frequencyPlan ∧
    (statusGps gtw msg).platform = msg.platform ∧
    (statusGps gtw msg).description = msg.description ∧
    (msg.gps ≠ none → (statusGps gtw msg).gps = msg.gps) := by
  unfold statusGps
  split
  · simp_all
  · simp

/-- `statusFreq` leaves every field but the frequency plan unchanged,
and a non-empty frequency plan unchanged as well. -/
theorem statusFreq_frame (gtw : Gateway) (msg : StatusMessage) :
    (statusFreq gtw msg).gps = msg.gps ∧
    (statusFreq gtw msg).platform = msg.platform ∧
    (statusFreq gtw msg).description = msg.description ∧
    (msg.frequencyPlan ≠ "" → (statusFreq gtw msg).frequencyPlan = msg.frequencyPlan) := by
  unfold statusFreq
  split
  · simp_all
  · simp

/-- `statusPlatform` leaves every field but the platform unchanged, a
non-empty platform unchanged, and writes the attribute join on an empty
platform. -/
theorem statusPlatform_frame (gtw : Gateway) (msg : StatusMessage) :
    (statusPlatform gtw msg).gps = msg.gps ∧
    (statusPlatform gtw msg).frequencyPlan = msg.frequencyPlan ∧
    (statusPlatform gtw msg).description = msg.description ∧
    (msg.platform ≠ "" → (statusPlatform gtw msg).platform = msg.platform) ∧
    (msg.platform = "" → (statusPlatform gtw msg).platform =
      stringsJoin ((match gtw.attributes.brand with | some b => [b] | none => []) ++
                   (match gtw.attributes.model with | some m => [m] | none => [])) " ") := by
  unfold statusPlatform
  split
  · simp_all
  · simp_all

/-- `statusDescr` leaves every field but the description unchanged, and
a non-empty description unchanged as well. -/
theorem statusDescr_frame (gtw : Gateway) (msg : StatusMessage) :
    (statusDescr gtw msg).gps = msg.gps ∧
    (statusDescr gtw msg).frequencyPlan = msg.frequencyPlan ∧
    (statusDescr gtw msg).platform = msg.platform ∧
    (msg.description ≠ "" → (statusDescr gtw msg).description = msg.description) := by
  unfold statusDescr
  split
  · split <;> simp_all
  · simp

/-- `enrichStatus` never touches a present GPS field. -/
theorem enrichStatus_gps_preserved (gtw : Gateway) (msg : StatusMessage) (h : msg.gps ≠ none) :
    (enrichStatus gtw msg).gps = msg.gps := by
  unfold enrichStatus
  rw [(statusDescr_frame gtw _).1, (statusPlatform_frame gtw _).1, (statusFreq_frame gtw _).1,
    (statusGps_frame gtw msg).2.2.2 h]

/-- `enrichStatus` never touches a non-empty frequency plan. -/
theorem enrichStatus_freq_preserved (gtw : Gateway) (msg : StatusMessage) (h : msg.frequencyPlan ≠ "") :
    (enrichStatus gtw msg).frequencyPlan = msg.frequencyPlan := by
  have h1 : (statusGps gtw msg).frequencyPlan = msg.frequencyPlan := (statusGps_frame gtw msg).1
  unfold enrichStatus
  rw [(statusDescr_frame gtw _).2.1, (statusPlatform_frame gtw _).2.1,
    (statusFreq_frame gtw _).2.2.2 (by rw [h1]; exact h), h1]

/-- `enrichStatus` never touches a non-empty platform. -/
theorem enrichStatus_platform_preserved (gtw : Gateway) (msg : StatusMessage) (h : msg.platform ≠ "") :
    (enrichStatus gtw msg).platform = msg.platform := by
  have h1 : (statusFreq gtw (statusGps gtw msg)).platform = msg.platform := by
    rw [(statusFreq_frame gtw _).2.1, (statusGps_frame gtw msg).2.1]
  unfold enrichStatus
  rw [(statusDescr_frame gtw _).2.2.1, (statusPlatform_frame gtw _).2.2.2.1 (by rw [h1]; exact h), h1]

/-- `enrichStatus` never touches a non-empty description. -/
theorem enrichStatus_descr_preserved (gtw : Gateway) (msg : StatusMessage) (h : msg.description ≠ "") :
    (enrichStatus gtw msg).description = msg.description := by
  have h1 : (statusPlatform gtw (statusFreq gtw (statusGps gtw msg))).description = msg.description := by
    rw [(statusPlatform_frame gtw _).2.2.1, (statusFreq_frame gtw _).2.2.1,
      (statusGps_frame gtw msg).2.2.1]
  unfold enrichStatus
  rw [(statusDescr_frame gtw _).2.2.2 (by rw [h1]; exact h), h1]

/-- On an empty platform field, `enrichStatus` writes the join of the
non-nil brand and model attributes. -/
theorem enrichStatus_platform_join (gtw : Gateway) (msg : StatusMessage) (h : msg.platform = "") :
    (enrichStatus gtw msg).platform =
      stringsJoin ((match gtw.attributes.brand with | some b => [b] | none => []) ++
                   (match gtw.attributes.model with | some m => [m] | none => [])) " " := by
  have h1 : (statusFreq gtw (statusGps gtw msg)).platform = "" := by
    rw [(statusFreq_frame gtw _).2.1, (statusGps_frame gtw msg).2.1, h]
  unfold enrichStatus
  rw [(statusDescr_frame gtw _).2.2.1, (statusPlatform_frame gtw _).2.2.2.2 h1]

/-- Claim C6: enrichment is additive-only — a GPS field already present
on an uplink or status message, and a non-empty frequency plan, platform
or description on a status message, are left unchanged by the hooks
regardless of what is cached. -/
theorem enrichment_additive_only (p : Public) (now : Nat) (gatewayID : String)
    (umsg : UplinkMessage) (smsg : StatusMessage) :
    (umsg.gps ≠ none → (HandleUplink p now gatewayID umsg).msg.gps = umsg.gps) ∧
    (smsg.gps ≠ none → (HandleStatus p now gatewayID smsg).msg.gps = smsg.gps) ∧
    (smsg.frequencyPlan ≠ "" → (HandleStatus p now gatewayID smsg).msg.frequencyPlan = smsg.frequencyPlan) ∧
    (smsg.platform ≠ "" → (HandleStatus p now gatewayID smsg).msg.platform = smsg.platform) ∧
    (smsg.description ≠ "" → (HandleStatus p now gatewayID smsg).msg.description = smsg.description) := by
  have hs : (HandleStatus p now gatewayID smsg).msg = enrichStatus (get p now gatewayID).gateway smsg := rfl
  refine ⟨?_, ?_, ?_, ?_, ?_⟩
  · intro h
    cases herr : (get p now gatewayID).err with
    | none =>
      have hm : (HandleUplink p now gatewayID umsg).msg = enrichUplink (get p now gatewayID).gateway umsg := by
        simp only [HandleUplink]
        rw [herr]
      rw [hm]
      exact enrichUplink_gps_preserved _ umsg h
    | some e =>
      have hm : (HandleUplink p now gatewayID umsg).msg =
          enrichUplink (get p now gatewayID).gateway
            { umsg with trace := umsg.trace ++ [⟨"unable to get gateway info", some e⟩] } := by
        simp only [HandleUplink]
        rw [herr]
      rw [hm]
      exact enrichUplink_gps_preserved _ _ h
  · intro h
    rw [hs]
    exact enrichStatus_gps_preserved _ smsg h
  · intro h
    rw [hs]
    exact enrichStatus_freq_preserved _ smsg h
  · intro h
    rw [hs]
    exact enrichStatus_platform_preserved _ smsg h
  · intro h
    rw [hs]
    exact enrichStatus_descr_preserved _ smsg h

/-- Witness for C6 at concrete inputs: a message with GPS set keeps it,
and a status message with platform "X" keeps "X" despite cached brand
"Y". -/
theorem enrichment_additive_only_witness :
    (HandleUplink pC6 0 "gw" umsgSet).msg.gps = umsgSet.gps ∧
    (HandleStatus pC6 0 "gw" smsgSet).msg.platform = smsgSet.platform := by
  obtain ⟨h1, -, -, h4, -⟩ := enrichment_additive_only pC6 0 "gw" umsgSet smsgSet
  exact ⟨h1 (by decide), h4 (by decide)⟩

/-- Counterexample to C7 as stated: with a present-but-empty brand
attribute (`some ""`) and model "M", the platform written to a blank
status message is " M" — the empty brand contributes an empty element and
an extra leading space — whereas the claim ("attributes that are absent
or empty contribute nothing and introduce no extra space") requires "M". -/
theorem platform_join_counterexample :
    (HandleStatus pC7 0 "gw" msgBlank).msg.platform = " M" ∧ (" M" : String) ≠ "M" := by
  constructor
  · rfl
  · decide

/-- Claim C7 amended: for a status message with empty Platform, the
platform string is the join of the present (non-nil) brand and model
attributes with a single space, brand first; absent (nil) attributes
contribute nothing, but a present-but-empty attribute contributes an
empty element (so it still introduces the joining space when the other
attribute is present). -/
theorem platform_join_amended (p : Public) (now : Nat) (gatewayID : String) (msg : StatusMessage)
    (h : msg.platform = "") :
    ((get p now gatewayID).gateway.attributes.brand = none →
      (get p now gatewayID).gateway.attributes.model = none →
      (HandleStatus p now gatewayID msg).msg.platform = "") ∧
    (∀ b, (get p now gatewayID).gateway.attributes.brand = some b →
      (get p now gatewayID).gateway.attributes.model = none →
      (HandleStatus p now gatewayID msg).msg.platform = b) ∧
    (∀ m, (get p now gatewayID).gateway.attributes.brand = none →
      (get p now gatewayID).gateway.attributes.model = some m →
      (HandleStatus p now gatewayID msg).msg.platform = m) ∧
    (∀ b m, (get p now gatewayID).gateway.attributes.brand = some b →
      (get p now gatewayID).gateway.attributes.model = some m →
      (HandleStatus p now gatewayID msg).msg.platform = b ++ " " ++ m) := by
  have hj := enrichStatus_platform_join (get p now gatewayID).gateway msg h
  have hmsg : (HandleStatus p now gatewayID msg).msg = enrichStatus (get p now gatewayID).gateway msg := rfl
  refine ⟨?_, ?_, ?_, ?_⟩
  · intro hb hm
    rw [hmsg, hj, hb, hm]
    simp [stringsJoin]
  · intro b hb hm
    rw [hmsg, hj, hb, hm]
    simp [stringsJoin]
  · intro m hb hm
    rw [hmsg, hj, hb, hm]
    simp [stringsJoin]
  · intro b m hb hm
    rw [hmsg, hj, hb, hm]
    simp [stringsJoin]

/-- Witness for the amended C7 at concrete inputs: brand `some ""` and
model `some "M"` yield `"" ++ " " ++ "M"`. -/
theorem platform_join_amended_witness :
    (HandleStatus pC7 0 "gw" msgBlank).msg.platform = "" ++ " " ++ "M" := by
  obtain ⟨-, -, -, h4⟩ := platform_join_amended pC7 0 "gw" msgBlank rfl
  exact h4 "" "M" (by decide) (by decide)

/-- Claim C8: no hook ever returns an error to the pipeline — all four
hooks return nil on every input; a `get` error during on-uplink is
attached to the message as a trace event only; a `get` error during
on-status is discarded entirely (the status output depends only on the
cached record, never on the stored error). -/
theorem hooks_never_fail (p : Public) (now : Nat) (gatewayID : String)
    (cmsg : ConnectMessage) (dmsg : DisconnectMessage)
    (umsg : UplinkMessage) (smsg : StatusMessage) :
    (HandleConnect p cmsg).2 = none ∧
    (HandleDisconnect p dmsg).2 = none ∧
    (HandleUplink p now gatewayID umsg).ret = none ∧
    (HandleStatus p now gatewayID smsg).ret = none ∧
    (∀ e, (get p now gatewayID).err = some e →
      (⟨"unable to get gateway info", some e⟩ : TraceEvent) ∈ (HandleUplink p now gatewayID umsg).msg.trace) ∧
    ∀ i, p.info gatewayID = some i →
      (HandleStatus p now gatewayID smsg).msg = enrichStatus i.gateway smsg := by
  refine ⟨rfl, rfl, rfl, rfl, ?_, ?_⟩
  · intro e herr
    have hm : (HandleUplink p now gatewayID umsg).msg =
        enrichUplink (get p now gatewayID).gateway
          { umsg with trace := umsg.trace ++ [⟨"unable to get gateway info", some e⟩] } := by
      simp only [HandleUplink]
      rw [herr]
    rw [hm]
    exact enrichUplink_trace_mem _ _ _ (by simp)
  · intro i hi
    have hg := (get_components p now gatewayID i hi).1
    show enrichStatus (get p now gatewayID).gateway smsg = enrichStatus i.gateway smsg
    rw [hg]

/-- Witness for C8 at concrete inputs: with a stored fetch error "boom",
on-uplink attaches it as a trace event and on-status ignores it. -/
theorem hooks_never_fail_witness :
    (⟨"unable to get gateway info", some "boom"⟩ : TraceEvent) ∈ (HandleUplink pErr 0 "gw" ⟨none, []⟩).msg.trace ∧
    (HandleStatus pErr 0 "gw" msgBlank).msg = enrichStatus Gateway.empty msgBlank := by
  obtain ⟨-, -, -, -, h5, h6⟩ := hooks_never_fail pErr 0 "gw" ⟨"gw"⟩ ⟨"gw"⟩ ⟨none, []⟩ msgBlank
  exact ⟨h5 "boom" (by decide), h6 ⟨0, some "boom", Gateway.empty⟩ (by decide)⟩

end GatewayInfo
